import Mathlib

/-!
Shallow embedding of `main_simulation.py` (guided ramjet projectile
simulation): data model, aerodynamic lookup, per-step flight update and
the fixed-step simulation loop, with theorems checking the specification
claims. Python floats are modelled as real numbers.
-/

/-- A 3-component vector, mirroring the numpy arrays used for positions and
velocities (`[x, y, z]`). -/
structure Vec3 where
  x : ℝ
  y : ℝ
  z : ℝ

/-- A quaternion `[x, y, z, w]`, mirroring `scipy` `as_quat` output. -/
structure Quat where
  x : ℝ
  y : ℝ
  z : ℝ
  w : ℝ

/-- Euclidean norm of a 3-vector (`np.linalg.norm`). -/
noncomputable def vnorm (v : Vec3) : ℝ :=
  Real.sqrt (v.x ^ 2 + v.y ^ 2 + v.z ^ 2)

/-- Two-argument arctangent `np.arctan2 y x`: the angle of the point `(x, y)`,
in `(-π, π]`, with `arctan2 0 0 = 0`. -/
noncomputable def arctan2 (y x : ℝ) : ℝ :=
  if 0 < x then Real.arctan (y / x)
  else if x < 0 then
    (if 0 ≤ y then Real.arctan (y / x) + Real.pi
     else Real.arctan (y / x) - Real.pi)
  else
    (if 0 < y then Real.pi / 2
     else if y < 0 then -(Real.pi / 2)
     else 0)

/-- `np.clip a lo hi`: clamp `a` into the interval `[lo, hi]`. -/
noncomputable def npClip (a lo hi : ℝ) : ℝ :=
  min (max a lo) hi

/-- `np.radians d`: degrees to radians. -/
noncomputable def radians (d : ℝ) : ℝ :=
  d * Real.pi / 180

namespace Config

/-- Time step (seconds). -/
noncomputable def dt : ℝ := 0.01

/-- Max flight time. -/
noncomputable def max_time : ℝ := 100

/-- Gravity (m/s^2). -/
noncomputable def g : ℝ := 9.81

/-- Projectile mass (kg). -/
noncomputable def mass : ℝ := 43.5

/-- Projectile diameter (m). -/
noncomputable def diameter : ℝ := 0.155

/-- Reference cross-sectional area: `pi * (diameter/2)^2`. -/
noncomputable def area : ℝ := Real.pi * (diameter / 2) ^ 2

/-- Target position, 15 km downrange. -/
noncomputable def target_pos : Vec3 := ⟨15000, 500, 0⟩

end Config

/-- The aerodynamic database: after construction it holds two lookup curves
`Mach → Cd` and `Mach → Cl-slope` (either interpolants built from the CSV,
or the hardcoded fallback constants). -/
structure AeroDatabase where
  cd_curve : ℝ → ℝ
  cl_curve : ℝ → ℝ

/-- Look up drag from the loaded curve (`AeroDatabase.get_cd`). -/
def AeroDatabase.get_cd (a : AeroDatabase) (mach : ℝ) : ℝ :=
  a.cd_curve mach

/-- Look up lift slope from the loaded curve (`AeroDatabase.get_cl_alpha`). -/
def AeroDatabase.get_cl_alpha (a : AeroDatabase) (mach : ℝ) : ℝ :=
  a.cl_curve mach

/-- The fallback database built when table loading fails (`except` branch of
`AeroDatabase.__init__`): `cd_curve = lambda m: 0.67`,
`cl_curve = lambda m: 2.0`. -/
def fallbackAero : AeroDatabase :=
  { cd_curve := fun _ => 0.67, cl_curve := fun _ => 2.0 }

/-- Linear interpolation along the segment through `(x0, y0)` and `(x1, y1)`,
evaluated at `x` (also used beyond the segment: linear extension). -/
noncomputable def interpSeg (x0 y0 x1 y1 x : ℝ) : ℝ :=
  y0 + (y1 - y0) / (x1 - x0) * (x - x0)

/-- Modelled from the spec: the piecewise-linear interpolant built by
`scipy.interpolate.interp1d(..., kind='linear', fill_value="extrapolate")`,
whose implementation is external library code not present in `src/`.
Given the current segment `p0-p1` and the remaining sample points, a query
`x ≤ p1.1` is answered on the current segment (which extends linearly below
the first sample) and later queries move to the next segment; past the last
sample the last segment extends linearly. -/
noncomputable def interpPts : (ℝ × ℝ) → (ℝ × ℝ) → List (ℝ × ℝ) → ℝ → ℝ
  | p0, p1, [], x => interpSeg p0.1 p0.2 p1.1 p1.2 x
  | p0, p1, p2 :: ps, x =>
      if x ≤ p1.1 then interpSeg p0.1 p0.2 p1.1 p1.2 x
      else interpPts p1 p2 ps x

/-- Modelled from the spec: `interp1d` over a list of `(Mach, value)` sample
points sorted by strictly increasing Mach, with linear extrapolation at both
ends; degenerate lists are given harmless values (scipy would reject them). -/
noncomputable def interp1d (pts : List (ℝ × ℝ)) : ℝ → ℝ :=
  match pts with
  | [] => fun _ => 0
  | [p] => fun _ => p.2
  | p0 :: p1 :: ps => fun x => interpPts p0 p1 ps x

/-- The database built from the spec's example table: Mach samples
`[1.0, 2.0, 3.0]` with Cd `[0.3, 0.5, 0.4]` (the Cl-slope column is not
constrained by the example; constant 2.0 is used). -/
noncomputable def tableAero : AeroDatabase :=
  { cd_curve := interp1d [(1, 0.3), (2, 0.5), (3, 0.4)]
  , cl_curve := interp1d [(1, 2.0), (2, 2.0), (3, 2.0)] }

/-- The projectile state: position and velocity in the inertial frame, the
orientation quaternion, and the aerodynamic database attached at
construction. -/
structure Projectile where
  pos : Vec3
  vel : Vec3
  quat : Quat
  aero : AeroDatabase

/-- `Projectile.__init__`: start at 2 km altitude, 680 m/s along x, identity
orientation (`R.from_euler('xyz', [0,0,0]).as_quat() = [0,0,0,1]`); the
database parameter stands for the outcome of `AeroDatabase()` construction
(loaded table or fallback). -/
noncomputable def initialProjectile (a : AeroDatabase) : Projectile :=
  { pos := ⟨0, 2000, 0⟩
  , vel := ⟨680, 0, 0⟩
  , quat := ⟨0, 0, 0, 1⟩
  , aero := a }

/-- Line-of-sight angle to the target (lines 76-77):
`arctan2 (target - pos).y (target - pos).x`. -/
noncomputable def losAngle (s : Projectile) (target : Vec3) : ℝ :=
  arctan2 (target.y - s.pos.y) (target.x - s.pos.x)

/-- Flight-path angle as computed in the guidance step (line 80):
`arctan2 vel.y vel.x`. -/
noncomputable def guidanceVelAngle (s : Projectile) : ℝ :=
  arctan2 s.vel.y s.vel.x

/-- Flight-path angle as re-derived in the frame-resolution step (line 108):
`arctan2 vel.y vel.x`. -/
noncomputable def frameGamma (s : Projectile) : ℝ :=
  arctan2 s.vel.y s.vel.x

/-- Raw proportional-navigation command (lines 84-85):
`N * (los_angle - vel_angle)` with navigation constant `N = 3.0`. -/
noncomputable def rawAlphaCmd (s : Projectile) (target : Vec3) : ℝ :=
  3.0 * (losAngle s target - guidanceVelAngle s)

/-- Commanded angle of attack after the structural limit (line 88):
`np.clip(alpha_cmd, -radians 10, radians 10)`. -/
noncomputable def alphaCmd (s : Projectile) (target : Vec3) : ℝ :=
  npClip (rawAlphaCmd s target) (-(radians 10)) (radians 10)

/-- `Projectile.update(dt, target_pos)`: one step of the flight dynamics,
mirroring lines 63-128 of the source. Returns the boolean result together
with the post-call state (`false` leaves the state untouched). -/
noncomputable def Projectile.update (s : Projectile) (dt : ℝ)
    (target_pos : Vec3) : Bool × Projectile :=
  let h := s.pos.y
  let rho := 1.225 * Real.exp (-h / 8500)
  let speed := vnorm s.vel
  let mach := speed / 340
  if h < 0 then (false, s)
  else
    let alpha_cmd := alphaCmd s target_pos
    let Cd := s.aero.get_cd mach
    let Cl_slope := s.aero.get_cl_alpha mach
    let Cl := Cl_slope * alpha_cmd
    let q := 0.5 * rho * speed ^ 2 * Config.area
    let F_drag := q * Cd
    let F_lift := q * Cl
    let gamma := frameGamma s
    let fx_aero := -F_drag * Real.cos gamma - F_lift * Real.sin gamma
    let fy_aero := -F_drag * Real.sin gamma + F_lift * Real.cos gamma
    let ax := fx_aero / Config.mass
    let ay := fy_aero / Config.mass - Config.g
    let vx := s.vel.x + ax * dt
    let vy := s.vel.y + ay * dt
    let px := s.pos.x + vx * dt
    let py := s.pos.y + vy * dt
    (true, { s with pos := ⟨px, py, s.pos.z⟩, vel := ⟨vx, vy, s.vel.z⟩ })

/-- One trajectory record (lines 146-149): downrange, altitude, and Mach of
the post-update state. -/
noncomputable def sampleOf (s : Projectile) : ℝ × ℝ × ℝ :=
  (s.pos.x, s.pos.y, vnorm s.vel / 340)

/-- The `while t < max_time` loop of `run_simulation` (lines 138-152), with a
fuel parameter bounding the iteration count (the concrete configuration
`dt = 0.01`, `max_time = 100` runs at most 10000 iterations, so any fuel of
at least 10001 reproduces the loop exactly). -/
noncomputable def runAux (dt maxT : ℝ) (target : Vec3) :
    Nat → ℝ → Projectile → List (ℝ × ℝ × ℝ)
  | 0, _, _ => []
  | n + 1, t, s =>
      if t < maxT then
        let r := s.update dt target
        if r.1 then sampleOf r.2 :: runAux dt maxT target n (t + dt) r.2
        else []
      else []

/-- `run_simulation()`: drive the projectile from its initial state at
`t = 0` under the global configuration, collecting the trajectory history. -/
noncomputable def run_simulation (a : AeroDatabase) : List (ℝ × ℝ × ℝ) :=
  runAux Config.dt Config.max_time Config.target_pos 10001 0
    (initialProjectile a)

/-- Air density per the spec, step 1: `ρ = 1.225 · exp(−h / 8500)` at the
state's altitude. -/
noncomputable def airDensity (s : Projectile) : ℝ :=
  1.225 * Real.exp (-s.pos.y / 8500)

/-- Mach number per the spec, step 1: `|velocity| / 340`. -/
noncomputable def machOf (s : Projectile) : ℝ :=
  vnorm s.vel / 340

/-- Flight-path angle per the spec: the `atan2` of vertical over horizontal
velocity. -/
noncomputable def flightPathAngleOf (s : Projectile) : ℝ :=
  arctan2 s.vel.y s.vel.x

/-- Dynamic pressure per the spec, step 4: `q = 0.5·ρ·|velocity|²·area`. -/
noncomputable def dynamicPressure (s : Projectile) : ℝ :=
  0.5 * airDensity s * vnorm s.vel ^ 2 * Config.area

/-- Drag force magnitude per the spec, step 4: `q·Cd`. -/
noncomputable def dragForce (s : Projectile) : ℝ :=
  dynamicPressure s * s.aero.get_cd (machOf s)

/-- Lift force magnitude per the spec, step 4: `q·Cl` with
`Cl = Cl-slope · commanded α` (possibly negative). -/
noncomputable def liftForce (s : Projectile) (target : Vec3) : ℝ :=
  dynamicPressure s * (s.aero.get_cl_alpha (machOf s) * alphaCmd s target)

/-- Inertial x-component of the aerodynamic force per the spec, step 5:
`Fx = −Fdrag·cos γ − Flift·sin γ`. -/
noncomputable def fxAero (s : Projectile) (target : Vec3) : ℝ :=
  -dragForce s * Real.cos (flightPathAngleOf s) -
    liftForce s target * Real.sin (flightPathAngleOf s)

/-- Inertial y-component of the aerodynamic force per the spec, step 5:
`Fy = −Fdrag·sin γ + Flift·cos γ`. -/
noncomputable def fyAero (s : Projectile) (target : Vec3) : ℝ :=
  -dragForce s * Real.sin (flightPathAngleOf s) +
    liftForce s target * Real.cos (flightPathAngleOf s)

/-- A state that has already fallen below ground level (altitude −1 m),
used to exercise the impact branch at a concrete input. -/
noncomputable def crashedState : Projectile :=
  { pos := ⟨0, -1, 0⟩
  , vel := ⟨680, 0, 0⟩
  , quat := ⟨0, 0, 0, 1⟩
  , aero := fallbackAero }

/-- A state at the origin flying level along x, used as a concrete guidance
input. -/
noncomputable def clampState : Projectile :=
  { pos := ⟨0, 0, 0⟩
  , vel := ⟨680, 0, 0⟩
  , quat := ⟨0, 0, 0, 1⟩
  , aero := fallbackAero }

/-- A target straight above `clampState`, so the line-of-sight error is 90°
and the raw guidance command saturates the ±10° limit. -/
noncomputable def clampTarget : Vec3 := ⟨0, 100, 0⟩

/-- A target level with the initial state, so the line-of-sight and
flight-path angles both vanish on the first step. -/
noncomputable def levelTarget : Vec3 := ⟨15000, 2000, 0⟩

/-- Helper: `arctan2 0 x = 0` for positive `x`. -/
theorem arctan2_zero_of_pos (x : ℝ) (hx : 0 < x) : arctan2 0 x = 0 := by
  unfold arctan2
  rw [if_pos hx, zero_div, Real.arctan_zero]

/-- Helper: the 10° structural limit is nonnegative. -/
theorem radians_ten_nonneg : 0 ≤ radians 10 := by
  unfold radians
  positivity

/-- Helper: clamping `0` into a symmetric interval gives `0`. -/
theorem npClip_zero (r : ℝ) (hr : 0 ≤ r) : npClip 0 (-r) r = 0 := by
  unfold npClip
  rw [max_eq_left (neg_nonpos.mpr hr), min_eq_left hr]

/-- C3: after a failed table load the fallback database answers every Mach
query (including zero and negative Mach) with the constant drag coefficient
0.67 and the constant lift-curve slope 2.0, and no failure escapes to the
caller (the fallback construction always succeeds). -/
theorem fallback_constant_coefficients (m : ℝ) :
    fallbackAero.get_cd m = 0.67 ∧ fallbackAero.get_cl_alpha m = 2.0 :=
  ⟨rfl, rfl⟩

/-- C7: the flight-path angle computed in the guidance step (line 80) and
the `γ` re-derived in the frame-resolution step (line 108) are the same
function of the state: the velocity vector is not mutated between the two
computations, so within one `update` call both evaluate to
`arctan2 vel.y vel.x` of the same velocity. -/
theorem gamma_recomputation_consistent (s : Projectile) :
    guidanceVelAngle s = frameGamma s ∧
    frameGamma s = arctan2 s.vel.y s.vel.x :=
  ⟨rfl, rfl⟩

/-- C10: every `update` call, impacting or not, leaves the third position
component, the third velocity component and the orientation quaternion
exactly unchanged; only the first two components of position and velocity
are mutated. -/
theorem update_planar_frame_effect (dt : ℝ) (target : Vec3) (s : Projectile) :
    (s.update dt target).2.pos.z = s.pos.z ∧
    (s.update dt target).2.vel.z = s.vel.z ∧
    (s.update dt target).2.quat = s.quat := by
  by_cases hc : s.pos.y < 0 <;>
    simp [Projectile.update, hc]

/-- C2: `update` returns `false` exactly when the altitude at the start of
the call is negative, and in that case the whole state (position, velocity
and orientation) is returned unchanged — the crossing step is discarded. -/
theorem update_impact_policy (dt : ℝ) (target : Vec3) (s : Projectile) :
    ((s.update dt target).1 = false ↔ s.pos.y < 0) ∧
    (s.pos.y < 0 → s.update dt target = (false, s)) := by
  by_cases hc : s.pos.y < 0 <;>
    simp [Projectile.update, hc]

/-- Witness for C2: at a state with altitude −1 the call reports impact and
hands back the state untouched. -/
theorem update_impact_policy_witness :
    crashedState.pos.y < 0 ∧
    crashedState.update 1 ⟨0, 0, 0⟩ = (false, crashedState) := by
  have h : crashedState.pos.y < 0 := by
    norm_num [crashedState]
  exact ⟨h, (update_impact_policy 1 ⟨0, 0, 0⟩ crashedState).2 h⟩

/-- C8: the simulation is deterministic — two runs with identical loop
parameters, identical start time and fuel, identical initial state and
identical coefficient source produce identical trajectories, and
`run_simulation` applied to equal databases produces equal histories. -/
theorem simulation_deterministic (dt1 dt2 maxT1 maxT2 : ℝ)
    (tgt1 tgt2 : Vec3) (n1 n2 : Nat) (t1 t2 : ℝ) (s1 s2 : Projectile)
    (a1 a2 : AeroDatabase) (hdt : dt1 = dt2) (hmax : maxT1 = maxT2)
    (htgt : tgt1 = tgt2) (hn : n1 = n2) (ht : t1 = t2) (hs : s1 = s2)
    (ha : a1 = a2) :
    runAux dt1 maxT1 tgt1 n1 t1 s1 = runAux dt2 maxT2 tgt2 n2 t2 s2 ∧
    run_simulation a1 = run_simulation a2 := by
  subst hdt hmax htgt hn ht hs ha
  exact ⟨rfl, rfl⟩

/-- Witness for C8: two syntactically identical runs coincide. -/
theorem simulation_deterministic_witness :
    runAux 1 1 ⟨0, 0, 0⟩ 1 0 crashedState =
      runAux 1 1 ⟨0, 0, 0⟩ 1 0 crashedState ∧
    run_simulation fallbackAero = run_simulation fallbackAero :=
  simulation_deterministic 1 1 1 1 ⟨0, 0, 0⟩ ⟨0, 0, 0⟩ 1 1 0 0
    crashedState crashedState fallbackAero fallbackAero
    rfl rfl rfl rfl rfl rfl rfl

/-- C9: the loop starts at `t = 0`; a step with `t` at or past the maximum
produces no further samples; a step whose `update` returns `false` stops at
once with no sample and no further `update` call; and a step whose `update`
returns `true` contributes exactly one sample (downrange, altitude, Mach of
the post-update state) followed by the rest of the run, in call order. -/
theorem loop_structure :
    (∀ a : AeroDatabase, run_simulation a =
      runAux Config.dt Config.max_time Config.target_pos 10001 0
        (initialProjectile a)) ∧
    (∀ (dt maxT : ℝ) (tgt : Vec3) (n : Nat) (t : ℝ) (s : Projectile),
      ¬ t < maxT → runAux dt maxT tgt (n + 1) t s = []) ∧
    (∀ (dt maxT : ℝ) (tgt : Vec3) (n : Nat) (t : ℝ) (s : Projectile),
      t < maxT → (s.update dt tgt).1 = false →
        runAux dt maxT tgt (n + 1) t s = []) ∧
    (∀ (dt maxT : ℝ) (tgt : Vec3) (n : Nat) (t : ℝ) (s : Projectile),
      t < maxT → (s.update dt tgt).1 = true →
        runAux dt maxT tgt (n + 1) t s =
          sampleOf (s.update dt tgt).2 ::
            runAux dt maxT tgt n (t + dt) (s.update dt tgt).2) := by
  refine ⟨fun a => rfl, ?_, ?_, ?_⟩
  · intro dt maxT tgt n t s ht
    simp [runAux, ht]
  · intro dt maxT tgt n t s ht hf
    simp [runAux, ht, hf]
  · intro dt maxT tgt n t s ht htr
    simp [runAux, ht, htr]

/-- Witness for C9: with time remaining but the projectile already below
ground, the loop ends immediately with an empty remaining trajectory. -/
theorem loop_structure_witness :
    (0 : ℝ) < 1 ∧ (crashedState.update 1 ⟨0, 0, 0⟩).1 = false ∧
    runAux 1 1 ⟨0, 0, 0⟩ 1 0 crashedState = [] := by
  have h0 : (0 : ℝ) < 1 := by norm_num
  have hf : (crashedState.update 1 ⟨0, 0, 0⟩).1 = false := by
    norm_num [Projectile.update, crashedState]
  exact ⟨h0, hf, loop_structure.2.2.1 1 1 ⟨0, 0, 0⟩ 0 0 crashedState h0 hf⟩

/-- C5: the commanded angle of attack fed into the lift computation is the
raw proportional command `3.0 · (losAngle − flightPathAngle)` clamped to the
±10° structural limit: its absolute value never exceeds 10° in radians, and
whenever the raw command exceeds a bound the applied value equals exactly
that bound. -/
theorem alpha_clamp (s : Projectile) (target : Vec3) :
    |alphaCmd s target| ≤ radians 10 ∧
    rawAlphaCmd s target = 3.0 * (losAngle s target - guidanceVelAngle s) ∧
    (radians 10 < rawAlphaCmd s target → alphaCmd s target = radians 10) ∧
    (rawAlphaCmd s target < -(radians 10) →
      alphaCmd s target = -(radians 10)) := by
  have hr : 0 ≤ radians 10 := radians_ten_nonneg
  unfold alphaCmd npClip
  refine ⟨?_, rfl, ?_, ?_⟩
  · rw [abs_le]
    constructor
    · exact le_min (le_trans (by linarith) (le_max_right _ _)) (by linarith)
    · exact min_le_right _ _
  · intro hgt
    rw [max_eq_left (by linarith), min_eq_right (by linarith)]
  · intro hlt
    rw [max_eq_right (by linarith), min_eq_left (by linarith)]

/-- Witness for C5: from level flight toward a target straight overhead the
raw command is `3·(π/2)`, beyond the 10° limit, and the applied command is
exactly `radians 10`. -/
theorem alpha_clamp_witness :
    radians 10 < rawAlphaCmd clampState clampTarget ∧
    alphaCmd clampState clampTarget = radians 10 := by
  have hraw : rawAlphaCmd clampState clampTarget = 3.0 * (Real.pi / 2) := by
    norm_num [rawAlphaCmd, losAngle, guidanceVelAngle, clampState,
      clampTarget, arctan2, Real.arctan_zero]
  have h : radians 10 < rawAlphaCmd clampState clampTarget := by
    rw [hraw]
    unfold radians
    nlinarith [Real.pi_pos]
  exact ⟨h, (alpha_clamp clampState clampTarget).2.2.1 h⟩

/-- C4: the interpolant of the spec's example table (Mach `[1, 2, 3]`, Cd
`[0.3, 0.5, 0.4]`) is total over the reals and uses linear extension of the
boundary segments outside the sampled range: below Mach 1 it follows the
first segment, above Mach 3 the last segment, with `cd 0.5 = 0.2` and
`cd 4 = 0.3` (no clamping, no failure). -/
theorem interp_boundary_extrapolation :
    (∀ m : ℝ, m < 1 → tableAero.get_cd m = interpSeg 1 0.3 2 0.5 m) ∧
    (∀ m : ℝ, 3 < m → tableAero.get_cd m = interpSeg 2 0.5 3 0.4 m) ∧
    tableAero.get_cd 0.5 = 0.2 ∧ tableAero.get_cd 4 = 0.3 := by
  have hlow : ∀ m : ℝ, m ≤ 2 →
      tableAero.get_cd m = interpSeg 1 0.3 2 0.5 m := by
    intro m hm
    simp only [tableAero, AeroDatabase.get_cd, interp1d, interpPts]
    rw [if_pos (by simpa using hm)]
  have hhigh : ∀ m : ℝ, 2 < m →
      tableAero.get_cd m = interpSeg 2 0.5 3 0.4 m := by
    intro m hm
    simp only [tableAero, AeroDatabase.get_cd, interp1d, interpPts]
    rw [if_neg (by simpa using not_le.mpr hm)]
  refine ⟨fun m hm => hlow m (by linarith), fun m hm => hhigh m (by linarith),
    ?_, ?_⟩
  · rw [hlow 0.5 (by norm_num)]
    norm_num [interpSeg]
  · rw [hhigh 4 (by norm_num)]
    norm_num [interpSeg]

/-- Witness for C4: Mach 0.5 lies below the sampled range and the lookup
answers with the linear extension of the first segment. -/
theorem interp_boundary_extrapolation_witness :
    (0.5 : ℝ) < 1 ∧ tableAero.get_cd 0.5 = interpSeg 1 0.3 2 0.5 0.5 := by
  have h : (0.5 : ℝ) < 1 := by norm_num
  exact ⟨h, interp_boundary_extrapolation.1 0.5 h⟩

/-- C6: on every surviving step the velocity increments applied by `update`
come from the inertial-frame aerodynamic force `Fx = −Fdrag·cos γ − Flift·sin γ`,
`Fy = −Fdrag·sin γ + Flift·cos γ` (with `γ` the flight-path angle of the
current velocity, `Fdrag = q·Cd`, `Flift = q·Cl`, and
`q = 0.5·ρ·|velocity|²·referenceArea`), divided by the mass, with gravity
subtracted on the vertical axis. -/
theorem aero_force_resolution (dt : ℝ) (target : Vec3) (s : Projectile)
    (htrue : (s.update dt target).1 = true) :
    (s.update dt target).2.vel.x =
      s.vel.x + fxAero s target / Config.mass * dt ∧
    (s.update dt target).2.vel.y =
      s.vel.y + (fyAero s target / Config.mass - Config.g) * dt := by
  by_cases hc : s.pos.y < 0
  · simp [Projectile.update, hc] at htrue
  · constructor <;>
      simp [Projectile.update, hc, fxAero, fyAero, dragForce, liftForce,
        dynamicPressure, airDensity, machOf, flightPathAngleOf, frameGamma,
        AeroDatabase.get_cd, AeroDatabase.get_cl_alpha]

/-- Witness for C6: the initial state survives its first step and its new
velocity components match the resolved-force formulas. -/
theorem aero_force_resolution_witness :
    ((initialProjectile fallbackAero).update 1 levelTarget).1 = true ∧
    ((initialProjectile fallbackAero).update 1 levelTarget).2.vel.x =
      (initialProjectile fallbackAero).vel.x +
        fxAero (initialProjectile fallbackAero) levelTarget /
          Config.mass * 1 ∧
    ((initialProjectile fallbackAero).update 1 levelTarget).2.vel.y =
      (initialProjectile fallbackAero).vel.y +
        (fyAero (initialProjectile fallbackAero) levelTarget /
          Config.mass - Config.g) * 1 := by
  have htrue : ((initialProjectile fallbackAero).update 1 levelTarget).1 =
      true := by
    norm_num [Projectile.update, initialProjectile]
  have h := aero_force_resolution 1 levelTarget
    (initialProjectile fallbackAero) htrue
  exact ⟨htrue, h.1, h.2⟩

/-- Counterexample to C1 as stated: on the very first step from the initial
state toward a level target, the new altitude is not
`old_position + old_velocity·Δt` — the position update uses the velocity
already advanced by this step (`2000 − g·Δt² ≠ 2000`). -/
theorem forward_euler_position_refuted :
    ((initialProjectile fallbackAero).update 0.01 levelTarget).2.pos.y ≠
      (initialProjectile fallbackAero).pos.y +
        (initialProjectile fallbackAero).vel.y * 0.01 := by
  have hγ : frameGamma (initialProjectile fallbackAero) = 0 := by
    show arctan2 (0 : ℝ) 680 = 0
    exact arctan2_zero_of_pos 680 (by norm_num)
  have hgv : guidanceVelAngle (initialProjectile fallbackAero) = 0 := by
    show arctan2 (0 : ℝ) 680 = 0
    exact arctan2_zero_of_pos 680 (by norm_num)
  have hlos : losAngle (initialProjectile fallbackAero) levelTarget = 0 := by
    show arctan2 ((2000 : ℝ) - 2000) ((15000 : ℝ) - 0) = 0
    norm_num
    exact arctan2_zero_of_pos 15000 (by norm_num)
  have hα : alphaCmd (initialProjectile fallbackAero) levelTarget = 0 := by
    unfold alphaCmd rawAlphaCmd
    rw [hlos, hgv]
    norm_num
    exact npClip_zero _ radians_ten_nonneg
  have hpy : (initialProjectile fallbackAero).pos.y = 2000 := rfl
  have hvy : (initialProjectile fallbackAero).vel.y = 0 := rfl
  have hcl : ∀ m : ℝ,
      (initialProjectile fallbackAero).aero.cl_curve m = 2.0 :=
    fun _ => rfl
  norm_num [Projectile.update, hpy, hvy, hγ, hα, hcl, Real.sin_zero,
    Real.cos_zero, AeroDatabase.get_cl_alpha, Config.mass, Config.g]

/-- C1 as amended: `update` advances each horizontal/vertical velocity by
forward Euler, `v_new = v_old + a·Δt`, and then advances position with the
**post-update** velocity, `x_new = x_old + v_new·Δt` (semi-implicit Euler),
where the accelerations are the resolved aerodynamic force over mass with
gravity subtracted vertically. -/
theorem semi_implicit_euler_integration (dt : ℝ) (target : Vec3)
    (s : Projectile) (htrue : (s.update dt target).1 = true) :
    (s.update dt target).2.vel.x =
      s.vel.x + fxAero s target / Config.mass * dt ∧
    (s.update dt target).2.vel.y =
      s.vel.y + (fyAero s target / Config.mass - Config.g) * dt ∧
    (s.update dt target).2.pos.x =
      s.pos.x + (s.vel.x + fxAero s target / Config.mass * dt) * dt ∧
    (s.update dt target).2.pos.y =
      s.pos.y +
        (s.vel.y + (fyAero s target / Config.mass - Config.g) * dt) * dt := by
  by_cases hc : s.pos.y < 0
  · simp [Projectile.update, hc] at htrue
  · refine ⟨?_, ?_, ?_, ?_⟩ <;>
      simp [Projectile.update, hc, fxAero, fyAero, dragForce, liftForce,
        dynamicPressure, airDensity, machOf, flightPathAngleOf, frameGamma,
        AeroDatabase.get_cd, AeroDatabase.get_cl_alpha]

/-- Witness for the amended C1: the first step from the initial state
survives and its position/velocity updates follow the semi-implicit Euler
scheme. -/
theorem semi_implicit_euler_integration_witness :
    ((initialProjectile fallbackAero).update 1 Config.target_pos).1 = true ∧
    ((initialProjectile fallbackAero).update 1 Config.target_pos).2.pos.x =
      (initialProjectile fallbackAero).pos.x +
        ((initialProjectile fallbackAero).vel.x +
          fxAero (initialProjectile fallbackAero) Config.target_pos /
            Config.mass * 1) * 1 ∧
    ((initialProjectile fallbackAero).update 1 Config.target_pos).2.pos.y =
      (initialProjectile fallbackAero).pos.y +
        ((initialProjectile fallbackAero).vel.y +
          (fyAero (initialProjectile fallbackAero) Config.target_pos /
            Config.mass - Config.g) * 1) * 1 := by
  have htrue : ((initialProjectile fallbackAero).update 1
      Config.target_pos).1 = true := by
    norm_num [Projectile.update, initialProjectile]
  have h := semi_implicit_euler_integration 1 Config.target_pos
    (initialProjectile fallbackAero) htrue
  exact ⟨htrue, h.2.2.1, h.2.2.2⟩
